import Mathlib

/-!
Verification of the CONTESTER data-model and routing layer against its
natural-language specification.  The Python source (app/models.py,
app/routes.py, app/utils/db.py) is shallowly embedded: ORM rows become
structures, the database session becomes an explicit state record, request
handlers become functions returning `Except` values (a `404`-aborting
lookup is an `Except.error`), and Python strings become `List Char`.
-/

/- ### Character constants

Characters that are awkward to spell in literals are named once.  These are
the characters manipulated by `Submission.processed_code` (models.py
202-215): backslash, double quote, single quote, backtick and newline. -/

def bslash : Char := Char.ofNat 92

def dquote : Char := Char.ofNat 34

def squote : Char := Char.ofNat 39

def bquote : Char := Char.ofNat 96

def nlChar : Char := Char.ofNat 10

/- ### TestResult / Submission rows (models.py 188-254) -/

/-- Embeds the `TestResult` row (models.py 234-254): `success` and `message`
columns; `test_id`/`submission_id` foreign keys and `user_output` kept for
fidelity. -/
structure TestResult where
  id : Nat
  test_id : Option Nat
  submission_id : Option Nat
  success : Bool
  message : String
  user_output : String
deriving DecidableEq

/-- Embeds the `Submission` row (models.py 188-231).  `source_code` is the
raw Python string, embedded as `List Char`; `test_results` is the loaded
relationship, in load order. -/
structure Submission where
  id : Nat
  task_id : Option Nat
  language : String
  passed_tests : Nat
  source_code : List Char
  test_results : List TestResult
deriving DecidableEq

/-- The dict returned by `Submission.get_result`
(`{'success': ..., 'message': ...}`). -/
structure SubmissionOutcome where
  success : Bool
  message : String
deriving DecidableEq

/-- Embeds `Submission.get_result` (models.py 217-223):
`failed_tests = [r for r in self.test_results if not r.success]`;
`if any(failed_tests)` — `any` over a list of ORM objects (always truthy)
is just nonemptiness — return the first failed result's message, else
`{'success': True, 'message': 'Success'}`. -/
def Submission.get_result (s : Submission) : SubmissionOutcome :=
  match s.test_results.filter (fun r => !r.success) with
  | [] => { success := true, message := "Success" }
  | failed :: _ => { success := false, message := failed.message }

/- ### Submission.processed_code (models.py 202-215)

`processed_code` computes `repr(self.source_code)[1:-1]` and then applies
`str.replace` for `'"'`, `"'"` and the backtick, in that dict-insertion
order.  Python's `repr` of a string is modelled character by character for
the ASCII range: the delimiting quote is `'` unless the string contains
`'` and no `"`; a backslash and the delimiter are backslash-escaped;
newline, carriage return and tab become two-character escapes; the other
control characters and DEL become `\xhh`; all remaining characters are
kept as themselves (CPython keeps printable characters raw). -/

/-- Concatenation of per-character pieces (`List` monadic bind on `Char`,
spelled out so every lemma about it is elementary). -/
def concatMap (f : Char → List Char) : List Char → List Char
  | [] => []
  | c :: rest => f c ++ concatMap f rest

/-- Membership test mirroring Python's `c in s`. -/
def memChar (s : List Char) (c : Char) : Bool :=
  match s with
  | [] => false
  | d :: rest => c = d || memChar rest c

/-- The quote character CPython's `repr` chooses as delimiter. -/
def pyDelim (s : List Char) : Char :=
  if memChar s squote && !(memChar s dquote) then dquote else squote

/-- Lowercase hexadecimal digit, as produced by CPython's `\xhh` escapes. -/
def hexDig (m : Nat) : Char :=
  Char.ofNat (if m < 10 then 48 + m else 87 + m)

/-- One character of `repr`'s body, for delimiter `q`. -/
def reprEscapeChar (q : Char) (c : Char) : List Char :=
  if c = bslash then [bslash, bslash]
  else if c = q then [bslash, c]
  else if c = nlChar then [bslash, 'n']
  else if c = Char.ofNat 13 then [bslash, 'r']
  else if c = Char.ofNat 9 then [bslash, 't']
  else if c.toNat < 32 ∨ c.toNat = 127 then
    [bslash, 'x', hexDig (c.toNat / 16), hexDig (c.toNat % 16)]
  else [c]

/-- `repr(s)` for a Python string `s`: delimiter, escaped body, delimiter. -/
def pyRepr (s : List Char) : List Char :=
  pyDelim s :: (concatMap (reprEscapeChar (pyDelim s)) s ++ [pyDelim s])

/-- Python's `str.replace` for a single-character pattern: every occurrence
of `pat` is replaced by `rep`. -/
def replaceChar (pat : Char) (rep : List Char) : List Char → List Char
  | [] => []
  | c :: rest => (if c = pat then rep else [c]) ++ replaceChar pat rep rest

/-- Embeds `Submission.processed_code` (models.py 202-215):
`code = repr(self.source_code)[1:-1]`, then the three replacements from
the `replacements` dict, in insertion order `'"'`, `"'"`, backtick. -/
def Submission.processed_code (s : Submission) : List Char :=
  let code := ((pyRepr s.source_code).drop 1).dropLast
  let code := replaceChar dquote [bslash, dquote] code
  let code := replaceChar squote [bslash, squote] code
  replaceChar bquote [bslash, bquote] code

/-- The per-character action of the whole `processed_code` pipeline: the
`repr` escape for delimiter `q` followed by the three replacements. -/
def procPiece (q : Char) (c : Char) : List Char :=
  replaceChar bquote [bslash, bquote]
    (replaceChar squote [bslash, squote]
      (replaceChar dquote [bslash, dquote] (reprEscapeChar q c)))

/- ### Escape-run bookkeeping

`escapeRunsOk kd ks kb k out` walks `out` keeping `k`, the length of the
maximal backslash run immediately before the current position, and checks
that every double quote is preceded by exactly `kd` backslashes, every
single quote by exactly `ks`, and every backtick by exactly `kb`.  The
claim "each of these three characters is preceded by exactly one backslash
and no unescaped occurrence remains" is `escapeRunsOk 1 1 1 0`. -/
def escapeRunsOk (kd ks kb : Nat) : Nat → List Char → Bool
  | _, [] => true
  | k, c :: rest =>
    if c = bslash then escapeRunsOk kd ks kb (k + 1) rest
    else if c = dquote then k == kd && escapeRunsOk kd ks kb 0 rest
    else if c = squote then k == ks && escapeRunsOk kd ks kb 0 rest
    else if c = bquote then k == kb && escapeRunsOk kd ks kb 0 rest
    else escapeRunsOk kd ks kb 0 rest

/-- A concrete submission whose source code is the three-character string
`"'` followed by a backtick — it contains a double quote, a single quote
and a backtick. -/
def subQuotes : Submission :=
  { id := 0, task_id := none, language := "python", passed_tests := 0,
    source_code := [dquote, squote, bquote], test_results := [] }

/- ### Database rows and session state (models.py 42-275) -/

/-- Embeds the `Grade` row (models.py 80-89): `id` and nullable `number`. -/
structure GradeRow where
  id : Nat
  number : Option Nat
deriving DecidableEq

/-- Embeds the `Role` row (models.py 92-100). -/
structure RoleRow where
  id : Nat
  name : Option String
deriving DecidableEq

/-- Embeds the `Topic` row (models.py 103-123). -/
structure TopicRow where
  id : Nat
  grade_id : Option Nat
  name : String
  translit_name : Option String
deriving DecidableEq

/-- Embeds the `Task` row (models.py 126-151). -/
structure TaskRow where
  id : Nat
  topic_id : Option Nat
  name : String
  translit_name : Option String
  text : String
deriving DecidableEq

/-- A stored password hash, as produced by the hashing utility: the parse
of werkzeug's `method$salt$hash` string. -/
structure PwHash where
  method : String
  salt : String
  dgst : String
deriving DecidableEq

/-- Embeds the `User` row (models.py 42-77). -/
structure UserRow where
  id : Nat
  name : String
  surname : String
  email : Option String
  verified : Bool
  role_id : Option Nat
  grade_id : Option Nat
  grade_letter : Option String
  hashed_password : Option PwHash
deriving DecidableEq

/-- The database session state: each table in insertion (primary-key)
order, plus the next value of each table's autoincrement counter. -/
structure DBState where
  grades : List GradeRow
  roles : List RoleRow
  topics : List TopicRow
  tasks : List TaskRow
  users : List UserRow
  nextGradeId : Nat
  nextRoleId : Nat
  nextUserId : Nat
deriving DecidableEq

/- ### Page routes (routes.py 29-73)

A handler either renders a page or terminates the request: `notFound`
embeds `first_or_404` aborting with HTTP 404, and `attributeError` embeds
an uncaught Python `AttributeError` (which surfaces as HTTP 500). -/

inductive RouteError where
  | notFound
  | attributeError
deriving DecidableEq

/-- `Query(...).filter(...).first_or_404()`: the first matching row, or a
404 response when there is none. -/
def firstOr404 {α : Type} (l : List α) : Except RouteError α :=
  match l with
  | [] => .error .notFound
  | x :: _ => .ok x

/-- `grade.get_topics()` as called by `grade_page` (routes.py 41): the
`Grade` class (models.py 80-89) defines no method or attribute named
`get_topics` — only the `topics` relationship — so the attribute lookup
raises `AttributeError`. -/
def GradeRow.get_topics (_g : GradeRow) : Except RouteError (List TopicRow) :=
  .error .attributeError

/-- The data handed to `render_template('grade.html', ...)`. -/
structure GradePageData where
  grade : GradeRow
  topics : List TopicRow
deriving DecidableEq

/-- Embeds `grade_page` (routes.py 36-44): look up the grade by exact
number (`first_or_404`), then call `grade.get_topics()` and render. -/
def grade_page (st : DBState) (grade_number : Nat) :
    Except RouteError GradePageData := do
  let grade ← firstOr404 (st.grades.filter (fun g => g.number == some grade_number))
  let topics ← grade.get_topics
  return { grade := grade, topics := topics }

/-- The data handed to `render_template('task.html', ...)`. -/
structure TaskPageData where
  grade : GradeRow
  topic : TopicRow
  task : TaskRow
deriving DecidableEq

/-- Embeds `task_page` (routes.py 58-66): three independent
`first_or_404` lookups — grade by number, topic by `translit_name`, task
by `translit_name` — with no join between them, then render. -/
def task_page (st : DBState) (grade_number : Nat)
    (topic_translit_name task_translit_name : String) :
    Except RouteError TaskPageData := do
  let grade ← firstOr404 (st.grades.filter (fun g => g.number == some grade_number))
  let topic ← firstOr404
    (st.topics.filter (fun t => t.translit_name == some topic_translit_name))
  let task ← firstOr404
    (st.tasks.filter (fun t => t.translit_name == some task_translit_name))
  return { grade := grade, topic := topic, task := task }

/-- A database state in which the slug `algebra` exists only under grade 6
while the path names grade 5, and the task `slozhenie` hangs off no
existing topic. -/
def crossedState : DBState where
  grades := [{ id := 1, number := some 5 }, { id := 2, number := some 6 }]
  roles := []
  topics := [{ id := 10, grade_id := some 2, name := "Алгебра",
               translit_name := some "algebra" }]
  tasks := [{ id := 20, topic_id := some 99, name := "Сложение",
              translit_name := some "slozhenie", text := "" }]
  users := []
  nextGradeId := 3
  nextRoleId := 1
  nextUserId := 1

/-- A database state holding exactly one grade, numbered 5. -/
def gradeFiveState : DBState where
  grades := [{ id := 1, number := some 5 }]
  roles := []
  topics := []
  tasks := []
  users := []
  nextGradeId := 2
  nextRoleId := 1
  nextUserId := 1

/- ### Unauthorized-access redirect (routes.py 23-26, 69-73) -/

/-- A rendered HTTP response: either a rendered template or a redirect.
`page` carries the template name handed to `render_template`. -/
inductive Response where
  | page : String → Response
  | redirect : String → Response
deriving DecidableEq

/-- Flask's session dict (string keys), embedded as an association list
where an update shadows any earlier entry for the key. -/
def sessionSet (sess : List (String × String)) (k v : String) :
    List (String × String) :=
  (k, v) :: sess.filter (fun kv => kv.1 ≠ k)

/-- Lookup in the session dict. -/
def sessionGet (sess : List (String × String)) (k : String) : Option String :=
  (sess.find? (fun kv => kv.1 == k)).map (fun kv => kv.2)

/-- Modelled from the spec: the URL of the auth blueprint's login page
(`url_for('auth.login_page')`).  The auth blueprint's routes are not part
of the supplied source; the spec's URL surface (§6) places the login page
under the `/auth` prefix. -/
def login_page_url : String := "/auth/login"

/-- An incoming HTTP request: its path and the session identity resolved
by the login manager (`current_user`), absent when unauthenticated. -/
structure Request where
  path : String
  current_user : Option Nat
deriving DecidableEq

/-- Embeds `unauthorized_callback` (routes.py 23-26):
`session['next_url'] = request.path` then
`redirect(url_for('auth.login_page'))`. -/
def unauthorized_callback (sess : List (String × String)) (req : Request) :
    List (String × String) × Response :=
  (sessionSet sess "next_url" req.path, .redirect login_page_url)

/-- Embeds `profile_page` (routes.py 69-73): `@login_required` invokes the
registered unauthorized handler when no session identity is present,
otherwise the profile template is rendered. -/
def profile_page (sess : List (String × String)) (req : Request) :
    List (String × String) × Response :=
  match req.current_user with
  | none => unauthorized_callback sess req
  | some _ => (sess, .page "profile.html")

/- ### Password hashing (models.py 64-68)

`set_password`/`check_password` delegate to werkzeug's
`generate_password_hash`/`check_password_hash`, which are external to the
repository.  Modelled from the spec (§6): the utility accepts a plaintext
and returns an opaque salted hash (`method$salt$digest`), and accepts a
plaintext plus a stored hash and returns whether they match.  The
one-wayness of the real digest cannot be modelled; an injective stand-in
digest keyed on the salt is used instead. -/

/-- Modelled from the spec: the keyed digest inside the stored hash.  Any
salt-keyed injective function represents it; the real pbkdf2 digest is not
reproducible here. -/
def pwDigest (salt password : String) : String :=
  salt ++ "#" ++ password

/-- Modelled from the spec: werkzeug's `generate_password_hash` with an
explicit salt (the real utility draws the salt at random). -/
def generate_password_hash (salt password : String) : PwHash :=
  { method := "pbkdf2:sha256:260000", salt := salt,
    dgst := pwDigest salt password }

/-- Modelled from the spec: werkzeug's `check_password_hash` recomputes
the digest with the salt stored in the hash and compares. -/
def check_password_hash (h : PwHash) (password : String) : Bool :=
  h.dgst == pwDigest h.salt password

/-- Embeds `User.set_password` (models.py 64-65). -/
def UserRow.set_password (u : UserRow) (salt password : String) : UserRow :=
  { u with hashed_password := some (generate_password_hash salt password) }

/-- Embeds `User.check_password` (models.py 67-68); a user without a
stored hash never matches. -/
def UserRow.check_password (u : UserRow) (password : String) : Bool :=
  match u.hashed_password with
  | some h => check_password_hash h password
  | none => false

/- ### Database seeding (models.py 278-303) -/

/-- Embeds `init_db_data` (models.py 278-303).  If no User row exists:
seven grades numbered `range(5, 12)`, roles `user` then `admin`, and the
bootstrap admin whose `role_id` is taken from
`query(Role).filter(Role.name == 'admin').first().id` (the first row of
the role table whose name is `admin`, autoflush having assigned ids), with
`set_password(environ.get('ADMIN_PASSWORD'))`; the whole batch is
committed once.  Otherwise nothing happens.  The environment-provided
password and the hashing salt are passed as parameters. -/
def init_db_data (st : DBState) (admin_password salt : String) : DBState :=
  if st.users.length = 0 then
    let newGrades := (List.range' 5 7).map
      (fun n => ({ id := st.nextGradeId + (n - 5), number := some n } : GradeRow))
    let user_role : RoleRow := { id := st.nextRoleId, name := some "user" }
    let admin_role : RoleRow := { id := st.nextRoleId + 1, name := some "admin" }
    let roles' := st.roles ++ [user_role, admin_role]
    let admin_role_id :=
      ((roles'.filter (fun r => r.name == some "admin")).head?).map
        (fun r => r.id)
    let admin : UserRow :=
      { id := st.nextUserId, name := "Админ", surname := "Админович",
        email := some "contester@mail.ru", verified := true,
        role_id := admin_role_id, grade_id := none, grade_letter := none,
        hashed_password := none }
    let admin := admin.set_password salt admin_password
    { st with
      grades := st.grades ++ newGrades,
      roles := roles',
      users := st.users ++ [admin],
      nextGradeId := st.nextGradeId + 7,
      nextRoleId := st.nextRoleId + 2,
      nextUserId := st.nextUserId + 1 }
  else st

/-- The empty database state. -/
def emptyState : DBState where
  grades := []
  roles := []
  topics := []
  tasks := []
  users := []
  nextGradeId := 1
  nextRoleId := 1
  nextUserId := 1

/- ### Textual debug rendering (models.py 24-39, 70-77) -/

/-- One rendered field of `BaseModel._repr`: `f'{key}={field!r}'` when the
repr of the field value computes, `f'{key}=DetachedInstanceError'` when it
raises `DetachedInstanceError` (models.py 30-34). -/
def fieldString (kv : String × Except Unit String) : String :=
  match kv.2 with
  | .ok s => kv.1 ++ "=" ++ s
  | .error _ => kv.1 ++ "=DetachedInstanceError"

/-- `','.join(field_strings)` (models.py 38). -/
def joinComma : List String → String
  | [] => ""
  | [s] => s
  | s :: t :: rest => s ++ "," ++ joinComma (t :: rest)

/-- Embeds `BaseModel._repr` (models.py 27-39).  Each entry of `fields`
carries the outcome of rendering one keyword argument inside the loop's
`try`: `repr` of an already-fetched related object can raise
`DetachedInstanceError`, caught and rendered as the marker;
`at_least_one_attached_attribute` becomes true exactly when some field
rendered, and otherwise the identity-only `<Class id(self)>` form is
returned. -/
def reprFields (cls : String) (pyObjId : Nat)
    (fields : List (String × Except Unit String)) : String :=
  if fields.any (fun kv => kv.2.isOk) then
    "<" ++ cls ++ "(" ++ joinComma (fields.map fieldString) ++ ")>"
  else
    "<" ++ cls ++ " " ++ toString pyObjId ++ ">"

/-- `repr` of a Python string value, as `{field!r}` applies to the
f-string-built fields of `User.__repr__`. -/
def strRepr (s : String) : String :=
  String.mk (pyRepr s.data)

/-- The in-memory `User` object, as `User.__repr__` (models.py 70-77)
sees it: the loaded columns, plus the two relationship reads the method
performs while building `_repr`'s arguments.  `gradeAccess` is the result
of reading `self.grade` (as the string its f-string interpolates) and
`roleAccess` that of reading `self.role`; each is `Except.error` when the
instance is detached and the relationship unloaded, which raises
`DetachedInstanceError`.  The inner `Except` of `roleAccess` is the
outcome of `repr(role)`, evaluated only later, inside `_repr`'s `try`. -/
structure UserMem where
  pyObjId : Nat
  idVal : Nat
  name : String
  surname : String
  email : String
  grade_letter : String
  gradeAccess : Except Unit String
  roleAccess : Except Unit (Except Unit String)

/-- Embeds `User.__repr__` (models.py 70-77): the keyword arguments are
evaluated at the call site — `f'{self.grade}{self.grade_letter}'` and
`self.role` read the relationships before `_repr` runs, so a
`DetachedInstanceError` raised there propagates out of `__repr__`. -/
def userRepr (u : UserMem) : Except Unit String := do
  let g ← u.gradeAccess
  let r ← u.roleAccess
  return reprFields "User" u.pyObjId
    [("id", .ok (toString u.idVal)),
     ("name", .ok (strRepr (u.name ++ " " ++ u.surname))),
     ("grade", .ok (strRepr (g ++ u.grade_letter))),
     ("email", .ok (strRepr u.email)),
     ("role", r)]

/-- A detached `User` whose relationship reads raise. -/
def detachedUser : UserMem :=
  { pyObjId := 139872, idVal := 1, name := "Иван", surname := "Иванов",
    email := "ivan@mail.ru", grade_letter := "А",
    gradeAccess := .error (), roleAccess := .error () }

/-- A `User` whose own relationship reads succeed but whose fetched
`role` object fails to render (its own load raising inside `repr`). -/
def nestedDetachedUser : UserMem :=
  { pyObjId := 139873, idVal := 2, name := "Пётр", surname := "Петров",
    email := "petr@mail.ru", grade_letter := "Б",
    gradeAccess := .ok "6", roleAccess := .ok (.error ()) }

/- ### Theorems -/

/-- C1, helper: the head of the failed-filter is the first failure found by
a left-to-right scan. -/
theorem filter_failed_eq_find (l : List TestResult) :
    (match l.filter (fun r => !r.success) with
      | [] => ({ success := true, message := "Success" } : SubmissionOutcome)
      | failed :: _ => { success := false, message := failed.message }) =
    (match l.find? (fun r => r.success = false) with
      | some r => ({ success := false, message := r.message } : SubmissionOutcome)
      | none => { success := true, message := "Success" }) := by
  induction l with
  | nil => rfl
  | cons r rest ih =>
    by_cases h : r.success
    · simpa [List.filter_cons, List.find?, h] using ih
    · simp only [Bool.not_eq_true] at h
      simp [List.filter_cons, List.find?, h]

/-- C1: `get_result` scans `test_results` in load order; if any result has
`success = false` it returns `{success := false, message := m}` where `m`
is the message of the FIRST failed result in list order, and otherwise it
returns `{success := true, message := "Success"}` with the literal string
`"Success"`. -/
theorem get_result_first_failure (s : Submission) :
    s.get_result =
      match s.test_results.find? (fun r => r.success = false) with
      | some r => { success := false, message := r.message }
      | none => { success := true, message := "Success" } :=
  filter_failed_eq_find s.test_results

/-- C9: a Submission whose `test_results` collection is empty is reported
as fully successful: `get_result` returns
`{success := true, message := "Success"}`. -/
theorem get_result_empty_success (s : Submission)
    (h : s.test_results = []) :
    s.get_result = { success := true, message := "Success" } := by
  simp [Submission.get_result, h]

/-- C9 witness: a concrete submission with zero test results evaluates to
the success outcome. -/
theorem get_result_empty_success_witness :
    ({ id := 1, task_id := some 1, language := "python", passed_tests := 0,
       source_code := [], test_results := [] } : Submission).get_result =
      { success := true, message := "Success" } :=
  get_result_empty_success _ rfl

theorem replaceChar_append (pat : Char) (rep : List Char) (l₁ l₂ : List Char) :
    replaceChar pat rep (l₁ ++ l₂) =
      replaceChar pat rep l₁ ++ replaceChar pat rep l₂ := by
  induction l₁ with
  | nil => rfl
  | cons c rest ih => simp [replaceChar, ih]

theorem replaceChar_concatMap (pat : Char) (rep : List Char)
    (f : Char → List Char) (s : List Char) :
    replaceChar pat rep (concatMap f s) =
      concatMap (fun c => replaceChar pat rep (f c)) s := by
  induction s with
  | nil => rfl
  | cons c rest ih => simp [concatMap, replaceChar_append, ih]

/-- The `processed_code` pipeline is the concatenation of the per-character
pieces: stripping `[1:-1]` undoes exactly the two delimiters, and the
three single-character replacements distribute over concatenation. -/
theorem strip_delimiters (q : Char) (l : List Char) :
    ((q :: (l ++ [q])).drop 1).dropLast = l := by
  simp

theorem processed_code_eq_concatMap (s : Submission) :
    s.processed_code =
      concatMap (procPiece (pyDelim s.source_code)) s.source_code := by
  unfold Submission.processed_code pyRepr
  rw [strip_delimiters]
  dsimp only
  rw [replaceChar_concatMap, replaceChar_concatMap, replaceChar_concatMap]
  rfl

/-- C2 counterexample: `subQuotes.source_code` contains a double quote, a
single quote and a backtick, yet in `processed_code` not every such
character is preceded by exactly one backslash: since the source contains
both quote kinds, `repr` delimits with `'` and already escapes the single
quote, and the subsequent `.replace("'", "\\'")` adds a second backslash,
so the single quote ends up preceded by two backslashes. -/
theorem processed_code_not_singly_escaped :
    (dquote ∈ subQuotes.source_code ∧ squote ∈ subQuotes.source_code ∧
      bquote ∈ subQuotes.source_code) ∧
    escapeRunsOk 1 1 1 0 subQuotes.processed_code = false := by
  decide

theorem memChar_eq_true_iff (s : List Char) (c : Char) :
    memChar s c = true ↔ c ∈ s := by
  induction s with
  | nil => simp [memChar]
  | cons d rest ih => simp [memChar, ih]

/-- When the source contains a double quote, CPython's `repr` keeps the
single quote as delimiter. -/
theorem pyDelim_of_mem_dquote (s : List Char) (h : dquote ∈ s) :
    pyDelim s = squote := by
  have hm : memChar s dquote = true := (memChar_eq_true_iff s dquote).mpr h
  simp [pyDelim, hm]

/-- The hexadecimal digits emitted by the `\xhh` escape are never one of
the characters tracked by `escapeRunsOk`. -/
theorem hexDig_not_special : ∀ m, m < 16 →
    hexDig m ≠ bslash ∧ hexDig m ≠ dquote ∧ hexDig m ≠ squote ∧
      hexDig m ≠ bquote := by
  decide

/-- Per-character step for the amended escaping claim: with single-quote
delimiter and a non-backslash source character, the emitted piece keeps
the running invariant (`kd = 1`, `ks = 2`, `kb = 1`). -/
theorem escapeRunsOk_procPiece (c : Char) (rest : List Char)
    (hc : c ≠ bslash) :
    escapeRunsOk 1 2 1 0 (procPiece squote c ++ rest) =
      escapeRunsOk 1 2 1 0 rest := by
  by_cases h1 : c = dquote
  · subst h1
    have hp : procPiece squote dquote = [bslash, dquote] := by decide
    rw [hp]
    simp +decide [escapeRunsOk]
  by_cases h2 : c = squote
  · subst h2
    have hp : procPiece squote squote = [bslash, bslash, squote] := by decide
    rw [hp]
    simp +decide [escapeRunsOk]
  by_cases h3 : c = bquote
  · subst h3
    have hp : procPiece squote bquote = [bslash, bquote] := by decide
    rw [hp]
    simp +decide [escapeRunsOk]
  by_cases h4 : c = nlChar
  · subst h4
    have hp : procPiece squote nlChar = [bslash, 'n'] := by decide
    rw [hp]
    simp +decide [escapeRunsOk]
  by_cases h5 : c = Char.ofNat 13
  · subst h5
    have hp : procPiece squote (Char.ofNat 13) = [bslash, 'r'] := by decide
    rw [hp]
    simp +decide [escapeRunsOk]
  by_cases h6 : c = Char.ofNat 9
  · subst h6
    have hp : procPiece squote (Char.ofNat 9) = [bslash, 't'] := by decide
    rw [hp]
    simp +decide [escapeRunsOk]
  by_cases h7 : c.toNat < 32 ∨ c.toNat = 127
  · have hb1 : c.toNat / 16 < 16 := by
      have : c.toNat < 256 := by omega
      omega
    have hb2 : c.toNat % 16 < 16 := Nat.mod_lt _ (by norm_num)
    obtain ⟨q1a, q1b, q1c, q1d⟩ := hexDig_not_special _ hb1
    obtain ⟨q2a, q2b, q2c, q2d⟩ := hexDig_not_special _ hb2
    have hp : procPiece squote c =
        [bslash, 'x', hexDig (c.toNat / 16), hexDig (c.toNat % 16)] := by
      simp +decide [procPiece, reprEscapeChar, replaceChar, hc, h2, h4, h5,
        h6, h7, q1b, q1c, q1d, q2b, q2c, q2d]
    rw [hp]
    simp +decide [escapeRunsOk, q1a, q1b, q1c, q1d, q2a, q2b, q2c, q2d]
  · have hp : procPiece squote c = [c] := by
      simp +decide [procPiece, reprEscapeChar, replaceChar, hc, h1, h2, h3,
        h4, h5, h6, h7]
    rw [hp]
    simp +decide [escapeRunsOk, hc, h1, h2, h3]

theorem escapeRunsOk_concatMap (l : List Char) (h : bslash ∉ l) :
    escapeRunsOk 1 2 1 0 (concatMap (procPiece squote) l) = true := by
  induction l with
  | nil => rfl
  | cons c rest ih =>
    have hc : c ≠ bslash := fun he => h (he ▸ List.mem_cons_self c rest)
    have hrest : bslash ∉ rest := fun he => h (List.mem_cons_of_mem c he)
    rw [concatMap, escapeRunsOk_procPiece c _ hc]
    exact ih hrest

/-- C2 amended: for a Submission whose `source_code` contains a double
quote, a single quote and a backtick and contains no backslash,
`processed_code` leaves no unescaped occurrence of the three characters,
but the escape counts are uneven: every double quote and every backtick is
preceded by exactly one backslash, while every single quote is preceded by
exactly two (one inserted by `repr`, which uses single-quote delimiters
because the source also holds a double quote, and one by the
`.replace` pass). -/
theorem processed_code_escape_runs (s : Submission)
    (hd : dquote ∈ s.source_code) (_hs : squote ∈ s.source_code)
    (_hb : bquote ∈ s.source_code) (hnb : bslash ∉ s.source_code) :
    escapeRunsOk 1 2 1 0 s.processed_code = true := by
  rw [processed_code_eq_concatMap, pyDelim_of_mem_dquote _ hd]
  exact escapeRunsOk_concatMap _ hnb

/-- C2 amended witness: on the concrete three-character source the escape
counts are one, two and one. -/
theorem processed_code_escape_runs_witness :
    escapeRunsOk 1 2 1 0 subQuotes.processed_code = true :=
  processed_code_escape_runs subQuotes (by decide) (by decide) (by decide)
    (by decide)

/-- C3: the task page resolves Grade, Topic and Task by three independent
filters, so there is a database state for which the request succeeds (no
404) although the resolved topic belongs to a different grade than the one
in the path and the resolved task does not belong to the resolved topic. -/
theorem task_page_filters_independent :
    (∃ d, task_page crossedState 5 "algebra" "slozhenie" = .ok d ∧
      d.topic.grade_id ≠ some d.grade.id ∧
      d.task.topic_id ≠ some d.topic.id) := by
  refine ⟨{ grade := { id := 1, number := some 5 },
            topic := { id := 10, grade_id := some 2, name := "Алгебра",
                       translit_name := some "algebra" },
            task := { id := 20, topic_id := some 99, name := "Сложение",
                      translit_name := some "slozhenie", text := "" } },
    ?_, by decide, by decide⟩
  rfl

/-- C5 (code bug): requesting a grade page for a number with no matching
Grade row does terminate with 404, but for a number that does match, the
handler calls `grade.get_topics()` — a method `Grade` does not define — so
instead of loading the grade's topics and rendering the topic list the
request dies with an `AttributeError` (HTTP 500). -/
theorem grade_page_get_topics_missing :
    grade_page gradeFiveState 7 = .error .notFound ∧
    grade_page gradeFiveState 5 = .error .attributeError :=
  ⟨rfl, rfl⟩

/-- C6: a request to the auth-required profile page without a session
identity stores the originally requested path in the session under the
`next_url` key and responds with a redirect to the login page — not with
a rendered (error) body. -/
theorem profile_page_unauthorized_redirect
    (sess : List (String × String)) (req : Request)
    (h : req.current_user = none) :
    sessionGet (profile_page sess req).1 "next_url" = some req.path ∧
    (profile_page sess req).2 = .redirect login_page_url ∧
    ∀ t, (profile_page sess req).2 ≠ .page t := by
  simp [profile_page, h, unauthorized_callback, sessionSet, sessionGet,
    List.find?]

/-- C6 witness: an unauthenticated request for `/profile` is redirected to
the login page with `next_url = /profile` stashed. -/
theorem profile_page_unauthorized_redirect_witness :
    sessionGet (profile_page [] { path := "/profile", current_user := none }).1
        "next_url" = some "/profile" ∧
    (profile_page [] { path := "/profile", current_user := none }).2 =
      .redirect login_page_url ∧
    ∀ t, (profile_page [] { path := "/profile", current_user := none }).2 ≠
      .page t :=
  profile_page_unauthorized_redirect [] _ rfl

/-- C8: after `set_password P`, `check_password P` is true and
`check_password P2` is false for every `P2 ≠ P`; the stored value is a
salted hash — it records the salt and its digest differs from the
plaintext. -/
theorem set_password_check_password (u : UserRow) (salt P P2 : String)
    (hne : P2 ≠ P) :
    (u.set_password salt P).check_password P = true ∧
    (u.set_password salt P).check_password P2 = false ∧
    ∀ h, (u.set_password salt P).hashed_password = some h →
      h.salt = salt ∧ h.dgst ≠ P := by
  refine ⟨?_, ?_, ?_⟩
  · simp [UserRow.set_password, UserRow.check_password, check_password_hash,
      generate_password_hash]
  · simp only [UserRow.set_password, UserRow.check_password,
      check_password_hash, generate_password_hash]
    refine beq_eq_false_iff_ne.mpr (fun he => hne ?_)
    have hd : (salt ++ "#").data ++ P.data = (salt ++ "#").data ++ P2.data := by
      have h1 := congrArg String.data he
      simpa [pwDigest, String.data_append] using h1
    exact (String.ext (List.append_cancel_left hd)).symm
  · intro h hh
    simp only [UserRow.set_password, Option.some_inj] at hh
    subst hh
    refine ⟨rfl, fun he => ?_⟩
    have h1 := congrArg (fun s => s.data.length) he
    have hone : ("#".data).length = 1 := rfl
    simp [generate_password_hash, pwDigest, String.data_append, hone] at h1
    omega

/-- C8 witness: a concrete round trip. -/
theorem set_password_check_password_witness :
    (({ id := 1, name := "Иван", surname := "Иванов",
        email := some "ivan@mail.ru", verified := false, role_id := none,
        grade_id := none, grade_letter := none,
        hashed_password := none } : UserRow).set_password "s0"
          "hunter2").check_password "hunter2" = true ∧
    (({ id := 1, name := "Иван", surname := "Иванов",
        email := some "ivan@mail.ru", verified := false, role_id := none,
        grade_id := none, grade_letter := none,
        hashed_password := none } : UserRow).set_password "s0"
          "hunter2").check_password "hunter3" = false :=
  ⟨(set_password_check_password _ "s0" "hunter2" "hunter3" (by decide)).1,
    (set_password_check_password _ "s0" "hunter2" "hunter3" (by decide)).2.1⟩

/-- C4 helper: appending the two seed roles to any role table leaves a
first `admin`-named row, and that row is indeed named `admin`. -/
theorem first_admin_role (l : List RoleRow) (i j : Nat) :
    ∃ r : RoleRow,
      ((l ++ ([{ id := i, name := some "user" },
               { id := j, name := some "admin" }] : List RoleRow)).filter
          (fun r => r.name == some "admin")).head? = some r ∧
      r.name = some "admin" ∧
      r ∈ l ++ ([{ id := i, name := some "user" },
                 { id := j, name := some "admin" }] : List RoleRow) := by
  rw [List.filter_append]
  have hpair : (([{ id := i, name := some "user" },
      { id := j, name := some "admin" }] : List RoleRow).filter
        (fun r => r.name == some "admin")) =
      [{ id := j, name := some "admin" }] := by
    simp +decide [List.filter]
  rw [hpair]
  cases hlf : l.filter (fun r => r.name == some "admin") with
  | nil =>
    refine ⟨{ id := j, name := some "admin" }, by simp, rfl, ?_⟩
    simp
  | cons hd tl =>
    have hmem : hd ∈ l.filter (fun r => r.name == some "admin") := by
      rw [hlf]; exact List.mem_cons_self hd tl
    refine ⟨hd, by simp, ?_, ?_⟩
    · have := List.of_mem_filter hmem
      simpa using this
    · exact List.mem_append_left _ (List.mem_of_mem_filter hmem)

/-- C4: run on a session with zero User rows, the seeding routine creates
exactly seven Grade rows numbered 5..11, exactly two Role rows named
`user` and `admin`, and exactly one User — the bootstrap admin (`Админ
Админович`, `contester@mail.ru`, verified, no grade) whose role is the
first `admin`-named Role row; run when at least one User row exists, it
leaves the database state unchanged. -/
theorem init_db_data_seeds :
    (∀ (st : DBState) (pw salt : String), st.users = [] →
      ((init_db_data st pw salt).grades =
          st.grades ++ (List.range' 5 7).map
            (fun n => ({ id := st.nextGradeId + (n - 5),
                         number := some n } : GradeRow)) ∧
        ((init_db_data st pw salt).grades.drop st.grades.length).map
            (fun g => g.number) =
          [some 5, some 6, some 7, some 8, some 9, some 10, some 11]) ∧
      (init_db_data st pw salt).roles =
        st.roles ++ [{ id := st.nextRoleId, name := some "user" },
                     { id := st.nextRoleId + 1, name := some "admin" }] ∧
      (∃ r : RoleRow, r ∈ (init_db_data st pw salt).roles ∧
        r.name = some "admin" ∧
        (init_db_data st pw salt).users =
          [{ id := st.nextUserId, name := "Админ", surname := "Админович",
             email := some "contester@mail.ru", verified := true,
             role_id := some r.id, grade_id := none, grade_letter := none,
             hashed_password :=
               some (generate_password_hash salt pw) }])) ∧
    (∀ (st : DBState) (pw salt : String), st.users ≠ [] →
      init_db_data st pw salt = st) := by
  constructor
  · intro st pw salt h
    have hlen : st.users.length = 0 := by simp [h]
    obtain ⟨r, hr1, hr2, hr3⟩ :=
      first_admin_role st.roles st.nextRoleId (st.nextRoleId + 1)
    refine ⟨⟨?_, ?_⟩, ?_, ⟨r, ?_, hr2, ?_⟩⟩
    · simp [init_db_data, hlen]
    · simp only [init_db_data, hlen, if_pos]
      rw [List.drop_left]
      rfl
    · simp [init_db_data, hlen]
    · simpa [init_db_data, hlen] using hr3
    · simp only [init_db_data, hlen, if_true]
      rw [h, hr1]
      rfl
  · intro st pw salt h
    have hlen : ¬st.users.length = 0 := by
      simpa [List.length_eq_zero] using h
    simp [init_db_data, hlen]

/-- C4 witness: seeding the empty state yields grades numbered 5..11, and
seeding `gradeFiveState` extended with a user is a no-op; concretely we
reuse the state produced by the first run, which has one user. -/
theorem init_db_data_seeds_witness :
    ((init_db_data emptyState "pw" "s0").grades.drop
        emptyState.grades.length).map (fun g => g.number) =
      [some 5, some 6, some 7, some 8, some 9, some 10, some 11] ∧
    init_db_data (init_db_data emptyState "pw" "s0") "pw" "s0" =
      init_db_data emptyState "pw" "s0" :=
  ⟨(init_db_data_seeds.1 emptyState "pw" "s0" rfl).1.2,
    init_db_data_seeds.2 (init_db_data emptyState "pw" "s0") "pw" "s0"
      (by decide)⟩

/-- C7 counterexample: rendering a detached `User` does not substitute the
marker — the `DetachedInstanceError` raised by the `self.grade` read in
`User.__repr__`'s argument f-string propagates before `_repr`'s `try` can
intervene, so the rendering raises an unhandled fault instead of
producing a string. -/
theorem userRepr_detached_raises : userRepr detachedUser = .error () := rfl

/-- C7 amended: `_repr` itself never raises: when no field at all
resolves it falls back to the identity-only `<Class objId>` form, and a
field whose repr evaluation fails inside `_repr`'s `try` is rendered as
the literal `key=DetachedInstanceError` in the output.  The substitution
however covers only failures raised while rendering an already-fetched
value; a detached-instance error raised by the entity's own relationship
read while `__repr__` builds the arguments (as for `User`'s `grade` and
`role` fields) propagates out of the rendering. -/
theorem reprFields_detached_marker :
    (∀ (cls : String) (oid : Nat)
        (fields : List (String × Except Unit String)),
      (∀ kv ∈ fields, kv.2.isOk = false) →
      reprFields cls oid fields = "<" ++ cls ++ " " ++ toString oid ++ ">") ∧
    (∀ (u : UserMem) (g : String), u.gradeAccess = .ok g →
      u.roleAccess = .ok (.error ()) →
      ∃ s pre post, userRepr u = .ok s ∧
        s.data = pre ++ "role=DetachedInstanceError".data ++ post) := by
  constructor
  · intro cls oid fields hall
    have hany : fields.any (fun kv => kv.2.isOk) = false := by
      rw [List.any_eq_false]
      intro kv hkv
      simp [hall kv hkv]
    simp [reprFields, hany]
  · intro u g h1 h2
    have hrepr : userRepr u = .ok (reprFields "User" u.pyObjId
        [("id", .ok (toString u.idVal)),
         ("name", .ok (strRepr (u.name ++ " " ++ u.surname))),
         ("grade", .ok (strRepr (g ++ u.grade_letter))),
         ("email", .ok (strRepr u.email)),
         ("role", .error ())]) := by
      rw [userRepr, h1, h2]
      rfl
    refine ⟨_,
      ("<" ++ "User" ++ "(" ++ ("id" ++ "=" ++ toString u.idVal) ++ "," ++
        ("name" ++ "=" ++ strRepr (u.name ++ " " ++ u.surname)) ++ "," ++
        ("grade" ++ "=" ++ strRepr (g ++ u.grade_letter)) ++ "," ++
        ("email" ++ "=" ++ strRepr u.email) ++ ",").data,
      (")>").data, hrepr, ?_⟩
    rw [show ("role=DetachedInstanceError").data =
      ("role").data ++ ("=DetachedInstanceError").data from rfl]
    simp [reprFields, joinComma, fieldString, Except.isOk, Except.toBool,
      String.data_append, List.append_assoc]

/-- C7 witness: the identity-only fallback on an all-failed field list,
and the marker substitution for a fetched role that fails to render. -/
theorem reprFields_detached_marker_witness :
    reprFields "Report" 555 [("user", .error ()), ("task", .error ()),
        ("text", .error ())] = "<" ++ "Report" ++ " " ++ toString 555 ++ ">" ∧
    (∃ s pre post, userRepr nestedDetachedUser = .ok s ∧
      s.data = pre ++ "role=DetachedInstanceError".data ++ post) :=
  ⟨reprFields_detached_marker.1 "Report" 555 _ (by decide),
    reprFields_detached_marker.2 nestedDetachedUser "6" rfl rfl⟩

/- ### C10: escapes beyond the three documented characters -/

theorem mem_concatMap (f : Char → List Char) (l : List Char) (x : Char) :
    x ∈ concatMap f l ↔ ∃ c ∈ l, x ∈ f c := by
  induction l with
  | nil => simp [concatMap]
  | cons c rest ih => simp [concatMap, ih]

theorem pyDelim_cases (s : List Char) :
    pyDelim s = dquote ∨ pyDelim s = squote := by
  unfold pyDelim
  split
  · exact Or.inl rfl
  · exact Or.inr rfl

theorem replaceChar_not_mem (x pat : Char) (rep l : List Char)
    (hrep : x ∉ rep) (hl : x ∉ l) : x ∉ replaceChar pat rep l := by
  induction l with
  | nil => simp [replaceChar]
  | cons c rest ih =>
    have hx : x ≠ c := fun he => hl (he ▸ List.mem_cons_self c rest)
    have hrest : x ∉ rest := fun he => hl (List.mem_cons_of_mem c he)
    simp only [replaceChar, List.mem_append]
    rintro (hpc | hpc)
    · by_cases hc : c = pat
      · rw [if_pos hc] at hpc
        exact hrep hpc
      · rw [if_neg hc] at hpc
        simp at hpc
        exact hx hpc
    · exact ih hrest hpc

theorem hexDig_ne_nl : ∀ m, m < 16 → hexDig m ≠ nlChar := by
  decide

theorem nl_not_mem_reprEscapeChar (q c : Char)
    (hq : q = dquote ∨ q = squote) : nlChar ∉ reprEscapeChar q c := by
  unfold reprEscapeChar
  split
  · decide
  · split
    · rename_i h1 h2
      subst h2
      rcases hq with h | h <;> subst h <;> decide
    · split
      · decide
      · split
        · decide
        · split
          · decide
          · split
            · rename_i h1 h2 h3 h4 h5 h6
              have hb1 : c.toNat / 16 < 16 := by omega
              have hb2 : c.toNat % 16 < 16 := Nat.mod_lt _ (by norm_num)
              intro hmem
              simp only [List.mem_cons, List.not_mem_nil, or_false] at hmem
              rcases hmem with h | h | h | h
              · exact absurd h (by decide)
              · exact absurd h (by decide)
              · exact hexDig_ne_nl _ hb1 h.symm
              · exact hexDig_ne_nl _ hb2 h.symm
            · rename_i h1 h2 h3 h4 h5 h6
              intro hmem
              simp only [List.mem_cons, List.not_mem_nil, or_false] at hmem
              exact h3 hmem.symm

theorem nl_not_mem_procPiece (q c : Char)
    (hq : q = dquote ∨ q = squote) : nlChar ∉ procPiece q c := by
  unfold procPiece
  refine replaceChar_not_mem _ _ _ _ (by decide)
    (replaceChar_not_mem _ _ _ _ (by decide)
      (replaceChar_not_mem _ _ _ _ (by decide)
        (nl_not_mem_reprEscapeChar q c hq)))

/-- C10: because `source_code` is passed through `repr` before the three
quote replacements, `processed_code` escapes more than the documented
characters: the pipeline acts per character (`concatMap` of `procPiece`),
a backslash in the source is emitted as two backslashes, a newline as the
two characters backslash-`n`, and the output never contains a raw newline
character. -/
theorem processed_code_repr_escapes (s : Submission) :
    s.processed_code =
      concatMap (procPiece (pyDelim s.source_code)) s.source_code ∧
    procPiece (pyDelim s.source_code) bslash = [bslash, bslash] ∧
    procPiece (pyDelim s.source_code) nlChar = [bslash, 'n'] ∧
    nlChar ∉ s.processed_code := by
  have hd := pyDelim_cases s.source_code
  refine ⟨processed_code_eq_concatMap s, ?_, ?_, ?_⟩
  · rfl
  · rcases hd with h | h <;> rw [h] <;> decide
  · rw [processed_code_eq_concatMap s]
    intro hmem
    obtain ⟨c, _, hx⟩ := (mem_concatMap _ _ _).mp hmem
    exact nl_not_mem_procPiece _ c hd hx
